import Mathlib

/-!
Verification development for `launch-kijko.py`, a single-file launcher that
starts a development server, records its process id in a marker file,
avoids duplicate launches, and mirrors the child's output.

The script is embedded shallowly: `runMain` is a pure function from an
abstract environment (existence of the two executables, current marker-file
content, an OS liveness oracle, the outcome of the spawn, optional injected
exceptions, and the child's output lines) to the triple
(exit code, final marker-file content, ordered trace of side effects).
Python's `str.strip`, `int(...)` parsing and `str(pid)` rendering are
modelled at the ASCII level.
-/

namespace LaunchKijko

/-- Configuration constant `APP_DIR` (source line 12). -/
def APP_DIR : String := "/home/david/Projects/Kijko/MVP/MVP_Kijko"

/-- Configuration constant `PID_FILE` (source line 13). -/
def PID_FILE : String := "/tmp/kijko-app.pid"

/-- Configuration constant `NODE_BIN` (source line 14). -/
def NODE_BIN : String := "/home/david/.nvm/versions/node/v24.4.1/bin"

/-- Configuration constant `NPM` (source line 15). -/
def NPM : String := NODE_BIN ++ "/npm"

/-- Configuration constant `NODE` (source line 16). -/
def NODE : String := NODE_BIN ++ "/node"

/-- Configuration constant `PORT` (source line 17). -/
def PORT : Nat := 5173

/-- The URL opened by both browser-opening sites (source lines 48 and 94). -/
def localhostUrl : String := "http://localhost:" ++ toString PORT

/-- ASCII whitespace as removed by Python's `str.strip()`. -/
def pySpace (c : Char) : Bool :=
  c = ' ' || c = '\t' || c = '\n' || c = '\r' || c = '\x0b' || c = '\x0c'

/-- Strip leading and trailing Python whitespace from a character list. -/
def pyStripList (l : List Char) : List Char :=
  ((l.dropWhile pySpace).reverse.dropWhile pySpace).reverse

/-- Model of Python `s.strip()` (source line 42). -/
def pyStrip (s : String) : String := String.mk (pyStripList s.toList)

/-- Scanner for the digit tail of a Python integer literal: digits with
single underscores allowed only between digits (Python `int()` grouping). -/
def goDigits : List Char → Bool
  | [] => true
  | c :: rest =>
    if c = '_' then
      match rest with
      | [] => false
      | c2 :: rest2 => c2.isDigit && goDigits (c2 :: rest2)
    else c.isDigit && goDigits rest

/-- A nonempty digit run (first character a digit, underscores only between
digits) as accepted by Python `int()` after sign removal. -/
def pyDigitsValid (l : List Char) : Bool :=
  match l with
  | [] => false
  | c :: rest => c.isDigit && goDigits rest

/-- One step of decimal accumulation; underscores are grouping only. -/
def digitStep (a : Nat) (c : Char) : Nat :=
  if c = '_' then a else a * 10 + (c.toNat - 48)

/-- Decimal value of a digit run (underscores skipped). -/
def digitsToNat (l : List Char) : Nat := l.foldl digitStep 0

/-- Core of Python `int(...)` on an already-stripped character list:
optional sign followed by a valid digit run, else a `ValueError` (`none`). -/
def pyIntCore (l : List Char) : Option Int :=
  match l with
  | [] => none
  | c :: rest =>
    if c = '+' then
      if pyDigitsValid rest then some (Int.ofNat (digitsToNat rest)) else none
    else if c = '-' then
      if pyDigitsValid rest then some (-(Int.ofNat (digitsToNat rest))) else none
    else
      if pyDigitsValid (c :: rest) then some (Int.ofNat (digitsToNat (c :: rest))) else none

/-- Model of Python `int(s)` (source line 42); `int` itself also ignores
surrounding whitespace. -/
def pyInt (s : String) : Option Int := pyIntCore (pyStripList s.toList)

/-- The decimal digit character for a value below ten. -/
def digitChar : Nat → Char
  | 0 => '0'
  | 1 => '1'
  | 2 => '2'
  | 3 => '3'
  | 4 => '4'
  | 5 => '5'
  | 6 => '6'
  | 7 => '7'
  | 8 => '8'
  | 9 => '9'
  | _ => '0'

/-- Accumulator-style decimal rendering of a positive natural number. -/
def natDigitsAux : Nat → List Char → List Char
  | 0, acc => acc
  | n + 1, acc => natDigitsAux ((n + 1) / 10) (digitChar ((n + 1) % 10) :: acc)
termination_by n _ => n
decreasing_by exact Nat.div_lt_self (Nat.succ_pos _) (by norm_num)

/-- Model of Python `str(pid)` for a (nonnegative) process id
(source line 83). -/
def pyStr (n : Nat) : String :=
  if n = 0 then ("0") else String.mk (natDigitsAux n [])

/-- Ten to the number of decimal digits produced by `natDigitsAux`. -/
def tenPow : Nat → Nat
  | 0 => 1
  | n + 1 => 10 * tenPow ((n + 1) / 10)
termination_by n => n
decreasing_by exact Nat.div_lt_self (Nat.succ_pos _) (by norm_num)

/-- Observable side effects of one run, in program order. -/
inductive Event where
  | print (s : String)
  | chdir (dir : String)
  | popen
  | writeMarker (content : String)
  | removeMarker
  | sleep (seconds : Nat)
  | browserOpen (url : String)
  deriving DecidableEq

/-- Outcome of the `subprocess.Popen` call (source lines 69-79): the target
may be missing (`FileNotFoundError`), the call may raise some other
exception, or it succeeds and yields a child process id. -/
inductive SpawnOutcome where
  | fileNotFound
  | raised (msg : String)
  | ok (pid : Nat)
  deriving DecidableEq

/-- Point at which an injected exception is raised after a successful spawn:
during `time.sleep(3)`, during `webbrowser.open`, or during the
output-monitoring loop (all inside the `try` of source lines 66-117). -/
inductive FailPoint where
  | atSleep
  | atBrowser
  | atMonitor
  deriving DecidableEq

/-- Abstract environment of one run: everything the script observes from
the OS.  `marker` is the content of `PID_FILE` at startup (`none` when the
file is absent), `alive pid` is the liveness probe `os.kill(pid, 0)`
(source line 46), `childLines` are the lines produced by the child until
end-of-stream, and `childExit` is the child's eventual exit status as seen
by `process.poll()` (its value is never inspected by the script). -/
structure Env where
  nodeExists : Bool
  npmExists : Bool
  marker : Option String
  alive : Int → Bool
  spawn : SpawnOutcome
  lateExn : Option (FailPoint × String)
  childLines : List String
  childExit : Int

/-- Console mirroring of the monitor loop (source lines 100-105): every
non-empty line read from the child is printed stripped. -/
def streamTrace (lines : List String) : List Event :=
  (lines.filter fun l => l != "").map fun l => Event.print (pyStrip l)

/-- Events common to every successful spawn before the startup delay
(source lines 69-86): the `Popen` call, the marker write, and the two
progress prints. -/
def spawnStartTrace (pid : Nat) : List Event :=
  [Event.print ("Starting Kijko app..."), Event.popen,
   Event.writeMarker (pyStr pid),
   Event.print ("Kijko app started with PID: " ++ pyStr pid),
   Event.print ("PID saved to " ++ PID_FILE)]

/-- Full event suffix of an exception-free spawn (source lines 69-109):
spawn, marker write, delay of 3, browser open, output streaming, removal
of the marker file. -/
def spawnOkTrace (pid : Nat) (lines : List String) : List Event :=
  spawnStartTrace pid ++
  [Event.print ("Waiting for server to start..."),
   Event.sleep 3,
   Event.print ("Opening browser..."),
   Event.browserOpen localhostUrl,
   Event.print ("Kijko app is now running!"),
   Event.print ("Use the close button in the app or run kill-kijko.sh to stop it.")] ++
  streamTrace lines ++ [Event.removeMarker]

/-- The `try`/`except` block of source lines 66-117, entered once the run
is known not to be a duplicate.  Returns (exit code, final marker-file
content, event suffix).  The marker file is absent at entry on every path
that reaches this block. -/
def spawnPhase (env : Env) : Int × Option String × List Event :=
  match env.spawn with
  | SpawnOutcome.fileNotFound =>
      (1, none,
       [Event.print ("Starting Kijko app..."), Event.popen,
        Event.print ("Error: Could not execute " ++ NPM),
        Event.print ("Please check your Node.js/NPM installation")])
  | SpawnOutcome.raised msg =>
      (1, none,
       [Event.print ("Starting Kijko app..."), Event.popen,
        Event.print ("Error starting Kijko app: " ++ msg)])
  | SpawnOutcome.ok pid =>
      match env.lateExn with
      | some (FailPoint.atSleep, msg) =>
          (1, some (pyStr pid),
           spawnStartTrace pid ++
           [Event.print ("Waiting for server to start..."),
            Event.print ("Error starting Kijko app: " ++ msg)])
      | some (FailPoint.atBrowser, msg) =>
          (1, some (pyStr pid),
           spawnStartTrace pid ++
           [Event.print ("Waiting for server to start..."), Event.sleep 3,
            Event.print ("Opening browser..."),
            Event.print ("Error starting Kijko app: " ++ msg)])
      | some (FailPoint.atMonitor, msg) =>
          (1, some (pyStr pid),
           spawnStartTrace pid ++
           [Event.print ("Waiting for server to start..."), Event.sleep 3,
            Event.print ("Opening browser..."), Event.browserOpen localhostUrl,
            Event.print ("Kijko app is now running!"),
            Event.print ("Use the close button in the app or run kill-kijko.sh to stop it."),
            Event.print ("Error starting Kijko app: " ++ msg)])
      | none =>
          (0, none, spawnOkTrace pid env.childLines)

/-- The banner prints and the `os.chdir` of source lines 19-25, emitted
before any check. -/
def headerTrace : List Event :=
  [Event.print ("=== Kijko Python Launcher ==="),
   Event.print ("App Directory: " ++ APP_DIR),
   Event.print ("Node Binary: " ++ NODE),
   Event.print ("NPM Binary: " ++ NPM),
   Event.chdir APP_DIR]

/-- Trace of a run aborted because the Node executable is missing
(source lines 28-31). -/
def noNodeTrace : List Event :=
  headerTrace ++ [Event.print ("Error: Node.js not found at " ++ NODE),
                  Event.print ("Please check your Node.js installation")]

/-- Trace of a run aborted because the NPM executable is missing
(source lines 33-36). -/
def noNpmTrace : List Event :=
  headerTrace ++ [Event.print ("Error: NPM not found at " ++ NPM),
                  Event.print ("Please check your NPM installation")]

/-- Shallow embedding of `main()` (source lines 10-119).  Returns
(exit code, final content of `PID_FILE`, ordered side-effect trace). -/
def runMain (env : Env) : Int × Option String × List Event :=
  if env.nodeExists = false then
    (1, env.marker, noNodeTrace)
  else if env.npmExists = false then
    (1, env.marker, noNpmTrace)
  else
    match env.marker with
    | some content =>
        match pyInt (pyStrip content) with
        | some pid =>
            if env.alive pid then
              (0, env.marker,
               headerTrace ++
               [Event.print ("Kijko app is already running (PID: " ++ toString pid ++ ")"),
                Event.browserOpen localhostUrl])
            else
              ((spawnPhase env).1, (spawnPhase env).2.1,
               headerTrace ++ Event.removeMarker :: (spawnPhase env).2.2)
        | none =>
            ((spawnPhase env).1, (spawnPhase env).2.1,
             headerTrace ++ Event.removeMarker :: (spawnPhase env).2.2)
    | none =>
        ((spawnPhase env).1, (spawnPhase env).2.1,
         headerTrace ++ (spawnPhase env).2.2)

/-- Recognises browser-opening events. -/
def isBrowserOpen : Event → Bool
  | Event.browserOpen _ => true
  | _ => false

/-- The sublist of browser-opening events of a trace. -/
def browserOpens (tr : List Event) : List Event := tr.filter isBrowserOpen

/-- The startup checks fall through to the spawn block: the marker file is
absent, or present but unparsable, or present with a pid whose liveness
probe fails. -/
def reachesSpawn (env : Env) : Prop :=
  env.marker = none ∨
  (∃ s, env.marker = some s ∧ pyInt (pyStrip s) = none) ∨
  (∃ s p, env.marker = some s ∧ pyInt (pyStrip s) = some p ∧ env.alive p = false)

/-- A trace segment containing only console prints, the initial `chdir`,
and marker-file removal — no spawn, no marker write, no browser open. -/
def tracePrefixBenign (t : List Event) : Prop :=
  ∀ e ∈ t, e = Event.chdir APP_DIR ∨ (∃ s, e = Event.print s) ∨ e = Event.removeMarker

/-- The trace removes the marker file and afterwards reaches the
`subprocess.Popen` call. -/
def removedThenSpawn (tr : List Event) : Prop :=
  ∃ t1 t2, tr = t1 ++ Event.removeMarker :: t2 ∧ Event.popen ∈ t2

/-- The run's trace ends with the full ordered spawn suffix
(`spawnOkTrace`): popen, then the marker write immediately after, then the
delay of 3, then the browser open, then the streamed output, then the
marker removal; everything before it is benign (prints, `chdir`, marker
removal). -/
def spawnOrdered (env : Env) (pid : Nat) : Prop :=
  ∃ t1, (runMain env).2.2 = t1 ++ spawnOkTrace pid env.childLines ∧ tracePrefixBenign t1

/-- Concrete environment: marker holds a live pid. -/
def envC1 : Env :=
  { nodeExists := true, npmExists := true, marker := some (" 4242\n"),
    alive := fun _ => true, spawn := SpawnOutcome.fileNotFound,
    lateExn := none, childLines := [], childExit := 0 }

/-- Concrete environment: marker holds a dead pid, spawn succeeds. -/
def envC2 : Env :=
  { nodeExists := true, npmExists := true, marker := some ("999999"),
    alive := fun _ => false, spawn := SpawnOutcome.ok 55,
    lateExn := none, childLines := [], childExit := 0 }

/-- Concrete environment: marker content is not an integer. -/
def envC3 : Env :=
  { nodeExists := true, npmExists := true, marker := some ("garbage"),
    alive := fun _ => false, spawn := SpawnOutcome.ok 56,
    lateExn := none, childLines := [], childExit := 0 }

/-- Concrete environment: the Node executable is missing. -/
def envC4 : Env :=
  { nodeExists := false, npmExists := true, marker := none,
    alive := fun _ => false, spawn := SpawnOutcome.ok 57,
    lateExn := none, childLines := [], childExit := 0 }

/-- Concrete environment: clean spawn that runs to child exit. -/
def envC5 : Env :=
  { nodeExists := true, npmExists := true, marker := none,
    alive := fun _ => false, spawn := SpawnOutcome.ok 777,
    lateExn := none, childLines := ["ready\n"], childExit := 0 }

/-- Concrete environment: clean spawn, used for the ordering claim. -/
def envC6 : Env :=
  { nodeExists := true, npmExists := true, marker := none,
    alive := fun _ => false, spawn := SpawnOutcome.ok 888,
    lateExn := none, childLines := ["a\n", "b\n"], childExit := 0 }

/-- Concrete environment: the spawn target cannot be executed. -/
def envC7 : Env :=
  { nodeExists := true, npmExists := true, marker := none,
    alive := fun _ => false, spawn := SpawnOutcome.fileNotFound,
    lateExn := none, childLines := [], childExit := 0 }

/-- Concrete environment: an exception is raised at the browser open,
after the marker file has been written. -/
def envC8 : Env :=
  { nodeExists := true, npmExists := true, marker := none,
    alive := fun _ => false, spawn := SpawnOutcome.ok 999,
    lateExn := some (FailPoint.atBrowser, "boom"), childLines := [], childExit := 0 }

/-- Concrete environment: clean spawn whose child exits with status 42. -/
def envC9 : Env :=
  { nodeExists := true, npmExists := true, marker := none,
    alive := fun _ => false, spawn := SpawnOutcome.ok 123,
    lateExn := none, childLines := [], childExit := 0 }

/-! ### Helper lemmas: decimal rendering and parsing round-trip -/

theorem toList_mk (l : List Char) : (String.mk l).toList = l := rfl

theorem digitChar_isDigit (m : Nat) (h : m < 10) : (digitChar m).isDigit = true := by
  interval_cases m <;> decide

theorem digitChar_not_space (m : Nat) (h : m < 10) : pySpace (digitChar m) = false := by
  interval_cases m <;> decide

theorem digitChar_ne_special (m : Nat) (h : m < 10) :
    digitChar m ≠ '_' ∧ digitChar m ≠ '+' ∧ digitChar m ≠ '-' := by
  interval_cases m <;> exact ⟨by decide, by decide, by decide⟩

theorem digitStep_eval (b : Nat) (c : Char) (v : Nat) (h : c ≠ '_')
    (hv : c.toNat - 48 = v) : digitStep b c = b * 10 + v := by
  simp [digitStep, h, hv]

theorem digitStep_digitChar (b : Nat) (m : Nat) (h : m < 10) :
    digitStep b (digitChar m) = b * 10 + m := by
  interval_cases m <;> exact digitStep_eval b _ _ (by decide) (by decide)

theorem natDigitsAux_foldl :
    ∀ (n : Nat) (acc : List Char) (a : Nat),
      List.foldl digitStep a (natDigitsAux n acc) =
        List.foldl digitStep (a * tenPow n + n) acc := by
  intro n
  induction n using Nat.strong_induction_on with
  | _ n ih =>
    match n with
    | 0 =>
      intro acc a
      simp [natDigitsAux, tenPow]
    | m + 1 =>
      intro acc a
      have hlt : (m + 1) / 10 < m + 1 := Nat.div_lt_self (Nat.succ_pos m) (by norm_num)
      calc List.foldl digitStep a (natDigitsAux (m + 1) acc)
          = List.foldl digitStep a
              (natDigitsAux ((m + 1) / 10) (digitChar ((m + 1) % 10) :: acc)) := by
            simp only [natDigitsAux]
        _ = List.foldl digitStep (a * tenPow ((m + 1) / 10) + (m + 1) / 10)
              (digitChar ((m + 1) % 10) :: acc) := ih _ hlt _ _
        _ = List.foldl digitStep
              ((a * tenPow ((m + 1) / 10) + (m + 1) / 10) * 10 + (m + 1) % 10) acc := by
            rw [List.foldl_cons,
                digitStep_digitChar _ _ (Nat.mod_lt _ (by norm_num))]
        _ = List.foldl digitStep (a * tenPow (m + 1) + (m + 1)) acc := by
            have ht : tenPow (m + 1) = 10 * tenPow ((m + 1) / 10) := by
              simp only [tenPow]
            have hdm : 10 * ((m + 1) / 10) + (m + 1) % 10 = m + 1 :=
              Nat.div_add_mod (m + 1) 10
            rw [ht]
            set d := (m + 1) / 10
            set r := (m + 1) % 10
            set T := tenPow d
            have harg : (a * T + d) * 10 + r = a * (10 * T) + (m + 1) := by
              rw [← hdm]; ring
            rw [harg]

theorem natDigitsAux_mem :
    ∀ (n : Nat) (acc : List Char) (c : Char), c ∈ natDigitsAux n acc →
      c ∈ acc ∨ ∃ m, m < 10 ∧ c = digitChar m := by
  intro n
  induction n using Nat.strong_induction_on with
  | _ n ih =>
    match n with
    | 0 =>
      intro acc c hc
      simp only [natDigitsAux] at hc
      exact Or.inl hc
    | m + 1 =>
      intro acc c hc
      simp only [natDigitsAux] at hc
      have hlt : (m + 1) / 10 < m + 1 := Nat.div_lt_self (Nat.succ_pos m) (by norm_num)
      rcases ih _ hlt _ _ hc with h | h
      · rcases List.mem_cons.mp h with h | h
        · exact Or.inr ⟨(m + 1) % 10, Nat.mod_lt _ (by norm_num), h⟩
        · exact Or.inl h
      · exact Or.inr h

theorem natDigitsAux_ne_nil :
    ∀ (n : Nat) (acc : List Char), acc ≠ [] → natDigitsAux n acc ≠ [] := by
  intro n
  induction n using Nat.strong_induction_on with
  | _ n ih =>
    match n with
    | 0 =>
      intro acc h
      simpa [natDigitsAux] using h
    | m + 1 =>
      intro acc h
      simp only [natDigitsAux]
      have hlt : (m + 1) / 10 < m + 1 := Nat.div_lt_self (Nat.succ_pos m) (by norm_num)
      exact ih _ hlt _ (by simp)

theorem dropWhile_of_none (l : List Char) (h : ∀ c ∈ l, pySpace c = false) :
    l.dropWhile pySpace = l := by
  cases l with
  | nil => rfl
  | cons c t =>
    rw [List.dropWhile_cons]
    simp [h c (List.mem_cons_self c t)]

theorem pyStripList_of_none (l : List Char) (h : ∀ c ∈ l, pySpace c = false) :
    pyStripList l = l := by
  unfold pyStripList
  rw [dropWhile_of_none l h,
      dropWhile_of_none l.reverse (fun c hc => h c (List.mem_reverse.mp hc)),
      List.reverse_reverse]

theorem goDigits_cons (c : Char) (t : List Char) (hne : c ≠ '_') :
    goDigits (c :: t) = (c.isDigit && goDigits t) := by
  conv_lhs => rw [goDigits.eq_def]
  simp [hne]

theorem goDigits_of_digits (l : List Char) (h : ∀ c ∈ l, c.isDigit = true) :
    goDigits l = true := by
  induction l with
  | nil => rfl
  | cons c t ih =>
    have hc := h c (List.mem_cons_self c t)
    have hne : c ≠ '_' := by
      intro he
      rw [he] at hc
      exact absurd hc (by decide)
    rw [goDigits_cons c t hne, hc, ih fun x hx => h x (List.mem_cons_of_mem c hx)]
    rfl

theorem pyDigitsValid_of_digits (l : List Char) (hne : l ≠ [])
    (h : ∀ c ∈ l, c.isDigit = true) : pyDigitsValid l = true := by
  cases l with
  | nil => exact absurd rfl hne
  | cons c t =>
    simp [pyDigitsValid, h c (List.mem_cons_self c t),
          goDigits_of_digits t (fun x hx => h x (List.mem_cons_of_mem c hx))]

/-! ### Helper lemmas: trace decomposition -/

theorem benign_append (t1 t2 : List Event) (h1 : tracePrefixBenign t1)
    (h2 : tracePrefixBenign t2) : tracePrefixBenign (t1 ++ t2) := by
  intro e he
  rcases List.mem_append.mp he with h | h
  · exact h1 e h
  · exact h2 e h

theorem headerTrace_benign : tracePrefixBenign headerTrace := by
  intro e he
  simp only [headerTrace, List.mem_cons, List.not_mem_nil, or_false] at he
  rcases he with rfl | rfl | rfl | rfl | rfl
  · exact Or.inr (Or.inl ⟨_, rfl⟩)
  · exact Or.inr (Or.inl ⟨_, rfl⟩)
  · exact Or.inr (Or.inl ⟨_, rfl⟩)
  · exact Or.inr (Or.inl ⟨_, rfl⟩)
  · exact Or.inl rfl

theorem removeMarker_benign : tracePrefixBenign [Event.removeMarker] := by
  intro e he
  simp only [List.mem_singleton] at he
  exact Or.inr (Or.inr he)

theorem runMain_spawn_decomp (env : Env)
    (hn : env.nodeExists = true) (hm : env.npmExists = true) (hr : reachesSpawn env) :
    ∃ t1, runMain env = ((spawnPhase env).1, (spawnPhase env).2.1,
        t1 ++ (spawnPhase env).2.2) ∧ tracePrefixBenign t1 := by
  rcases hr with h | ⟨s, hs, hp⟩ | ⟨s, p, hs, hp, ha⟩
  · exact ⟨headerTrace, by simp [runMain, hn, hm, h], headerTrace_benign⟩
  · refine ⟨headerTrace ++ [Event.removeMarker], ?_,
      benign_append _ _ headerTrace_benign removeMarker_benign⟩
    simp [runMain, hn, hm, hs, hp]
  · refine ⟨headerTrace ++ [Event.removeMarker], ?_,
      benign_append _ _ headerTrace_benign removeMarker_benign⟩
    simp [runMain, hn, hm, hs, hp, ha]

theorem spawnPhase_popen (env : Env) : Event.popen ∈ (spawnPhase env).2.2 := by
  cases hsp : env.spawn with
  | fileNotFound => simp [spawnPhase, hsp]
  | raised msg => simp [spawnPhase, hsp]
  | ok pid =>
    cases hl : env.lateExn with
    | none => simp [spawnPhase, hsp, hl, spawnOkTrace, spawnStartTrace]
    | some x =>
      obtain ⟨fp, msg⟩ := x
      cases fp <;> simp [spawnPhase, hsp, hl, spawnStartTrace]

/-! ### The claims -/

/-- C1: if the marker file exists, its content parses as an integer pid,
and the liveness probe reports the process alive, then `main` returns 0,
the trace contains exactly one browser-open event (to
`http://localhost:5173`), and no child process is spawned. -/
theorem claim_C1 (env : Env) (s : String) (pid : Int)
    (hn : env.nodeExists = true) (hm : env.npmExists = true)
    (hmk : env.marker = some s) (hp : pyInt (pyStrip s) = some pid)
    (ha : env.alive pid = true) :
    (runMain env).1 = 0 ∧
    browserOpens (runMain env).2.2 = [Event.browserOpen localhostUrl] ∧
    Event.popen ∉ (runMain env).2.2 := by
  simp [runMain, hn, hm, hmk, hp, ha, browserOpens, headerTrace, isBrowserOpen]

theorem claim_C1_witness :
    (runMain envC1).1 = 0 ∧
    browserOpens (runMain envC1).2.2 = [Event.browserOpen localhostUrl] ∧
    Event.popen ∉ (runMain envC1).2.2 :=
  claim_C1 envC1 (" 4242\n") 4242 rfl rfl rfl (by decide) rfl

/-- C2: if the marker file exists with a valid integer pid whose liveness
probe fails, `main` deletes the marker file and then proceeds to the
`subprocess.Popen` call. -/
theorem claim_C2 (env : Env) (s : String) (pid : Int)
    (hn : env.nodeExists = true) (hm : env.npmExists = true)
    (hmk : env.marker = some s) (hp : pyInt (pyStrip s) = some pid)
    (ha : env.alive pid = false) :
    removedThenSpawn (runMain env).2.2 := by
  refine ⟨headerTrace, (spawnPhase env).2.2, ?_, spawnPhase_popen env⟩
  simp [runMain, hn, hm, hmk, hp, ha]

theorem claim_C2_witness : removedThenSpawn (runMain envC2).2.2 :=
  claim_C2 envC2 ("999999") 999999 rfl rfl rfl (by decide) rfl

/-- C3: if the marker file exists but its content does not parse as an
integer, `main` removes the invalid marker file and then proceeds to the
`subprocess.Popen` call (no already-running short-circuit). -/
theorem claim_C3 (env : Env) (s : String)
    (hn : env.nodeExists = true) (hm : env.npmExists = true)
    (hmk : env.marker = some s) (hp : pyInt (pyStrip s) = none) :
    removedThenSpawn (runMain env).2.2 := by
  refine ⟨headerTrace, (spawnPhase env).2.2, ?_, spawnPhase_popen env⟩
  simp [runMain, hn, hm, hmk, hp]

theorem claim_C3_witness : removedThenSpawn (runMain envC3).2.2 :=
  claim_C3 envC3 ("garbage") rfl rfl rfl (by decide)

/-- C4: if either required executable is missing, `main` returns 1 after
printing the descriptive error message naming the missing executable (the
Node message when the Node check fails, the NPM message otherwise), leaves
the marker file exactly as it was (in particular creates none), and
performs no marker write, no spawn, no browser open and no marker removal:
the whole trace is the initial banner/`chdir` and console messages. -/
theorem errTrace_props (t : List Event) (ht : t = noNodeTrace ∨ t = noNpmTrace) :
    (∀ s, Event.writeMarker s ∉ t) ∧ Event.popen ∉ t ∧
    (∀ u, Event.browserOpen u ∉ t) ∧ Event.removeMarker ∉ t ∧
    tracePrefixBenign t := by
  rcases ht with rfl | rfl <;>
    refine ⟨by simp [noNodeTrace, noNpmTrace, headerTrace],
      by simp [noNodeTrace, noNpmTrace, headerTrace],
      by simp [noNodeTrace, noNpmTrace, headerTrace],
      by simp [noNodeTrace, noNpmTrace, headerTrace], ?_⟩ <;>
  · intro e he
    simp only [noNodeTrace, noNpmTrace, headerTrace, List.mem_append,
      List.mem_cons, List.not_mem_nil, or_false] at he
    rcases he with (rfl | rfl | rfl | rfl | rfl) | (rfl | rfl)
    all_goals first
      | exact Or.inl rfl
      | exact Or.inr (Or.inl ⟨_, rfl⟩)

theorem claim_C4 (env : Env)
    (h : env.nodeExists = false ∨ env.npmExists = false) :
    (runMain env).1 = 1 ∧ (runMain env).2.1 = env.marker ∧
    (env.nodeExists = false →
       Event.print ("Error: Node.js not found at " ++ NODE) ∈ (runMain env).2.2) ∧
    (env.nodeExists = true →
       Event.print ("Error: NPM not found at " ++ NPM) ∈ (runMain env).2.2) ∧
    (∀ s, Event.writeMarker s ∉ (runMain env).2.2) ∧
    Event.popen ∉ (runMain env).2.2 ∧
    (∀ u, Event.browserOpen u ∉ (runMain env).2.2) ∧
    Event.removeMarker ∉ (runMain env).2.2 ∧
    tracePrefixBenign (runMain env).2.2 := by
  have key : (env.nodeExists = false ∧ runMain env = (1, env.marker, noNodeTrace)) ∨
      (env.nodeExists = true ∧ runMain env = (1, env.marker, noNpmTrace)) := by
    cases hb : env.nodeExists with
    | false => exact Or.inl ⟨rfl, by simp [runMain, hb]⟩
    | true =>
      have hnpm : env.npmExists = false := by
        rcases h with h | h
        · rw [hb] at h
          exact absurd h (by decide)
        · exact h
      exact Or.inr ⟨rfl, by simp [runMain, hb, hnpm]⟩
  rcases key with ⟨hb, key⟩ | ⟨hb, key⟩
  · rw [key]
    have hp := errTrace_props noNodeTrace (Or.inl rfl)
    refine ⟨rfl, rfl, fun _ => ?_, fun hcon => ?_,
      hp.1, hp.2.1, hp.2.2.1, hp.2.2.2.1, hp.2.2.2.2⟩
    · simp [noNodeTrace, headerTrace]
    · rw [hb] at hcon
      exact absurd hcon (by decide)
  · rw [key]
    have hp := errTrace_props noNpmTrace (Or.inr rfl)
    refine ⟨rfl, rfl, fun hcon => ?_, fun _ => ?_,
      hp.1, hp.2.1, hp.2.2.1, hp.2.2.2.1, hp.2.2.2.2⟩
    · rw [hb] at hcon
      exact absurd hcon (by decide)
    · simp [noNpmTrace, headerTrace]

theorem claim_C4_witness :
    (runMain envC4).1 = 1 ∧ (runMain envC4).2.1 = envC4.marker ∧
    (envC4.nodeExists = false →
       Event.print ("Error: Node.js not found at " ++ NODE) ∈ (runMain envC4).2.2) ∧
    (envC4.nodeExists = true →
       Event.print ("Error: NPM not found at " ++ NPM) ∈ (runMain envC4).2.2) ∧
    (∀ s, Event.writeMarker s ∉ (runMain envC4).2.2) ∧
    Event.popen ∉ (runMain envC4).2.2 ∧
    (∀ u, Event.browserOpen u ∉ (runMain envC4).2.2) ∧
    Event.removeMarker ∉ (runMain envC4).2.2 ∧
    tracePrefixBenign (runMain envC4).2.2 :=
  claim_C4 envC4 (Or.inl rfl)

/-- C5: on any path that reaches the spawn, when the spawn succeeds and no
exception interrupts monitoring, `main` returns 0 and, after the monitored
child exits, removes the marker file: the final marker-file state is
absent and the trace contains the removal. -/
theorem claim_C5 (env : Env) (pid : Nat)
    (hn : env.nodeExists = true) (hm : env.npmExists = true)
    (hr : reachesSpawn env)
    (hs : env.spawn = SpawnOutcome.ok pid) (hl : env.lateExn = none) :
    (runMain env).1 = 0 ∧ (runMain env).2.1 = none ∧
    Event.removeMarker ∈ (runMain env).2.2 := by
  obtain ⟨t1, hEq, _⟩ := runMain_spawn_decomp env hn hm hr
  rw [hEq]
  simp [spawnPhase, hs, hl, spawnOkTrace]

theorem claim_C5_witness :
    (runMain envC5).1 = 0 ∧ (runMain envC5).2.1 = none ∧
    Event.removeMarker ∈ (runMain envC5).2.2 :=
  claim_C5 envC5 777 rfl rfl (Or.inl rfl) rfl rfl

/-- C6: on the successful spawn path the trace ends with `spawnOkTrace`:
the `Popen` call, then immediately the marker write with the child's pid,
then the delay of 3 time units, then the browser open to
`http://localhost:5173`, and only then the streamed output lines, followed
by the final marker removal; everything before this suffix is benign
(prints, the initial `chdir`, stale-marker removal). -/
theorem claim_C6 (env : Env) (pid : Nat)
    (hn : env.nodeExists = true) (hm : env.npmExists = true)
    (hr : reachesSpawn env)
    (hs : env.spawn = SpawnOutcome.ok pid) (hl : env.lateExn = none) :
    spawnOrdered env pid := by
  obtain ⟨t1, hEq, hb⟩ := runMain_spawn_decomp env hn hm hr
  refine ⟨t1, ?_, hb⟩
  rw [hEq]
  simp [spawnPhase, hs, hl]

theorem claim_C6_witness : spawnOrdered envC6 888 :=
  claim_C6 envC6 888 rfl rfl (Or.inl rfl) rfl rfl

/-- C7: `main` is a total function (no exception propagates out of the
embedded run); if the spawn target cannot be executed it reports the error
and returns 1, and any other exception raised at the spawn or afterwards
is caught, its message printed, and 1 returned. -/
theorem claim_C7 (env : Env)
    (hn : env.nodeExists = true) (hm : env.npmExists = true)
    (hr : reachesSpawn env) :
    (env.spawn = SpawnOutcome.fileNotFound →
       (runMain env).1 = 1 ∧
       Event.print ("Error: Could not execute " ++ NPM) ∈ (runMain env).2.2) ∧
    (∀ msg, env.spawn = SpawnOutcome.raised msg →
       (runMain env).1 = 1 ∧
       Event.print ("Error starting Kijko app: " ++ msg) ∈ (runMain env).2.2) ∧
    (∀ pid fp msg, env.spawn = SpawnOutcome.ok pid →
       env.lateExn = some (fp, msg) →
       (runMain env).1 = 1 ∧
       Event.print ("Error starting Kijko app: " ++ msg) ∈ (runMain env).2.2) := by
  obtain ⟨t1, hEq, _⟩ := runMain_spawn_decomp env hn hm hr
  refine ⟨fun hs => ?_, fun msg hs => ?_, fun pid fp msg hs hl => ?_⟩
  · rw [hEq]; simp [spawnPhase, hs]
  · rw [hEq]; simp [spawnPhase, hs]
  · rw [hEq]; cases fp <;> simp [spawnPhase, hs, hl, spawnStartTrace]

theorem claim_C7_witness : (runMain envC7).1 = 1 :=
  ((claim_C7 envC7 rfl rfl (Or.inl rfl)).1 rfl).1

/-- C8: if an exception is raised after the marker file has been written
(at the startup delay, the browser open, or the monitoring loop), `main`
returns 1 and the marker file still holds the new child's pid: the failure
path does not remove it. -/
theorem claim_C8 (env : Env) (pid : Nat) (fp : FailPoint) (msg : String)
    (hn : env.nodeExists = true) (hm : env.npmExists = true)
    (hr : reachesSpawn env)
    (hs : env.spawn = SpawnOutcome.ok pid)
    (hl : env.lateExn = some (fp, msg)) :
    (runMain env).1 = 1 ∧ (runMain env).2.1 = some (pyStr pid) := by
  obtain ⟨t1, hEq, _⟩ := runMain_spawn_decomp env hn hm hr
  rw [hEq]
  cases fp <;> simp [spawnPhase, hs, hl]

theorem claim_C8_witness :
    (runMain envC8).1 = 1 ∧ (runMain envC8).2.1 = some (pyStr 999) :=
  claim_C8 envC8 999 FailPoint.atBrowser ("boom") rfl rfl (Or.inl rfl) rfl rfl

/-- C9: the child's exit status is never inspected: on the monitored path
`main` returns 0 whatever exit status the child terminates with. -/
theorem claim_C9 (env : Env) (c : Int) (pid : Nat)
    (hn : env.nodeExists = true) (hm : env.npmExists = true)
    (hr : reachesSpawn env)
    (hs : env.spawn = SpawnOutcome.ok pid) (hl : env.lateExn = none) :
    (runMain { env with childExit := c }).1 = 0 := by
  have hn' : ({ env with childExit := c } : Env).nodeExists = true := hn
  have hm' : ({ env with childExit := c } : Env).npmExists = true := hm
  have hr' : reachesSpawn { env with childExit := c } := hr
  have hs' : ({ env with childExit := c } : Env).spawn = SpawnOutcome.ok pid := hs
  have hl' : ({ env with childExit := c } : Env).lateExn = none := hl
  obtain ⟨t1, hEq, _⟩ := runMain_spawn_decomp _ hn' hm' hr'
  rw [hEq]
  simp [spawnPhase, hs, hl]

theorem claim_C9_witness : (runMain { envC9 with childExit := 42 }).1 = 0 :=
  claim_C9 envC9 42 123 rfl rfl (Or.inl rfl) rfl rfl

/-- C10: the pid round-trip: rendering a process id with `str` (the spawn
path's marker write, source line 83) and parsing it back with
`int(read().strip())` (the duplicate-run check, source line 42) yields the
same integer. -/
theorem claim_C10 (pid : Nat) :
    pyInt (pyStrip (pyStr pid)) = some (Int.ofNat pid) := by
  match pid with
  | 0 => decide
  | m + 1 =>
    set L := natDigitsAux (m + 1) [] with hL
    have hmem : ∀ c ∈ L, ∃ k, k < 10 ∧ c = digitChar k := by
      intro c hc
      rw [hL] at hc
      rcases natDigitsAux_mem (m + 1) [] c hc with h | h
      · exact absurd h (List.not_mem_nil c)
      · exact h
    have hdigit : ∀ c ∈ L, c.isDigit = true := by
      intro c hc
      obtain ⟨k, hk, rfl⟩ := hmem c hc
      exact digitChar_isDigit k hk
    have hnospace : ∀ c ∈ L, pySpace c = false := by
      intro c hc
      obtain ⟨k, hk, rfl⟩ := hmem c hc
      exact digitChar_not_space k hk
    have hnil : L ≠ [] := by
      rw [hL]
      simp only [natDigitsAux]
      exact natDigitsAux_ne_nil _ _ (by simp)
    have hstr : pyStr (m + 1) = String.mk L := by
      simp [pyStr, hL]
    have hstrip : pyStripList L = L := pyStripList_of_none L hnospace
    have h1 : pyStrip (String.mk L) = String.mk L := by
      simp only [pyStrip, toList_mk, hstrip]
    have h2 : pyInt (String.mk L) = pyIntCore L := by
      simp only [pyInt, toList_mk, hstrip]
    rw [hstr, h1, h2]
    have hvalid : pyDigitsValid L = true := pyDigitsValid_of_digits L hnil hdigit
    have hval : digitsToNat L = m + 1 := by
      have hf := natDigitsAux_foldl (m + 1) [] 0
      simp only [List.foldl_nil, Nat.zero_mul, Nat.zero_add] at hf
      simpa [digitsToNat, hL] using hf
    obtain ⟨c, rest, hcons⟩ : ∃ c rest, L = c :: rest := by
      cases hLc : L with
      | nil => exact absurd hLc hnil
      | cons c rest => exact ⟨c, rest, rfl⟩
    obtain ⟨k, hk, hck⟩ := hmem c (by rw [hcons]; exact List.mem_cons_self c rest)
    have hplus : c ≠ '+' := by
      rw [hck]; exact (digitChar_ne_special k hk).2.1
    have hminus : c ≠ '-' := by
      rw [hck]; exact (digitChar_ne_special k hk).2.2
    rw [hcons] at hvalid hval ⊢
    simp [pyIntCore, hplus, hminus, hvalid, hval]

end LaunchKijko
